import Mathlib

set_option maxHeartbeats 1000000

/-! Shallow embedding of `src/app/services/forex_analyzer.py` (class
`AdvancedForexAnalyzer`).  Python floats are modelled as exact rationals;
Python's `round(x, d)` (banker's rounding) is modelled by `roundTo`;
the dictionaries exchanged between methods are modelled as structures.
The image-processing heuristics (`_detect_trend`, `_find_support_resistance`,
`_detect_patterns`, ...) run OpenCV on pixel data and are not embedded;
their *result* dictionary (`ImgAnalysis`) is taken as an input, exactly as
`_calculate_final_signal` receives it. -/

/-- Entry `trend_detected` of an image analysis: the dictionary
`{'direction': ..., 'strength': ...}` produced by `_detect_trend`
or `_fallback_analysis`. -/
structure TrendInfo where
  direction : String
  strength : ℚ
deriving DecidableEq

/-- Entry `support_resistance` of an image analysis: the dictionary with keys
`support` and `resistance`, each either a number or `None`. -/
structure SRInfo where
  support : Option ℚ
  resistance : Option ℚ
deriving DecidableEq

/-- The image-analysis dictionary built by `analyze_chart_image` (or by
`_fallback_analysis`). -/
structure ImgAnalysis where
  trend_detected : TrendInfo
  support_resistance : SRInfo
  patterns : List String
  volatility : String
  volume_trend : String
  candle_structure : String
deriving DecidableEq

/-- The live-data dictionary: either the record returned by
`get_live_price_data` (its `previous` and `volatility` keys are never read by
`_calculate_final_signal` and are omitted) or the zero-price fallback built in
`generate_signal`.  Both producers populate every key read by
`_calculate_final_signal` (`price`, `change_pct`, `rsi`, `day_high`,
`day_low`, `trend`), so the `.get(...)` defaults in the source never fire and
the record is modelled with plain fields. -/
structure LiveData where
  price : ℚ
  change_pct : ℚ
  rsi : ℚ
  day_high : ℚ
  day_low : ℚ
  trend : String
deriving DecidableEq

/-- One entry of the `reasons` list of `_calculate_final_signal`.  The source
appends f-strings; each constructor records which f-string was appended
together with the numeric values interpolated into it, so that equality of
`Reason` values coincides with equality of the rendered strings (the
fixed-point formatting `{:.0f}` / `{:.1f}` / `{:.2f}` is presentation only and
is a function of the recorded payload). -/
inductive Reason
  | uptrend (strength : ℚ)
  | downtrend (strength : ℚ)
  | sideways
  | nearSupport (support : ℚ)
  | nearResistance (resistance : ℚ)
  | middleRange (support resistance : ℚ)
  | triangleBullish
  | triangleBearish
  | channel
  | rsiOversold (rsi : ℚ)
  | rsiNearOversold (rsi : ℚ)
  | rsiOverbought (rsi : ℚ)
  | rsiNearOverbought (rsi : ℚ)
  | bullMomentum (change : ℚ)
  | bearMomentum (change : ℚ)
  | bullishCandles
  | bearishCandles
deriving DecidableEq

/-- Python truthiness of an optional numeric value: `None` and `0` are falsy,
every other number is truthy (used for `if sr['support'] and sr['resistance']`
and for the `if entry / if tp / if sl` guards). -/
def truthy : Option ℚ → Bool
  | none => false
  | some x => x != 0

/-- The arithmetic mean `np.mean` of a list of numbers (callers guard against
the empty list, as the source does). -/
def mean (l : List ℚ) : ℚ := l.sum / l.length

/-- Banker's rounding of a rational to the nearest integer, halves to even:
the semantics of Python's builtin `round` on exact values. -/
def roundHalfEven (x : ℚ) : ℤ :=
  if x - ⌊x⌋ < 1 / 2 then ⌊x⌋
  else if 1 / 2 < x - ⌊x⌋ then ⌊x⌋ + 1
  else if ⌊x⌋ % 2 = 0 then ⌊x⌋ else ⌊x⌋ + 1

/-- Python's `round(x, d)` on exact values. -/
def roundTo (x : ℚ) (d : ℕ) : ℚ := (roundHalfEven (x * 10 ^ d) : ℚ) / 10 ^ d

/-- Block 1 of `_calculate_final_signal` ("Image Trend Analysis"): returns the
score contribution, the reasons appended and the confidence factors appended. -/
def trendSection (t : TrendInfo) : ℚ × List Reason × List ℚ :=
  if t.direction = "uptrend" then
    (t.strength * (3 / 10), [Reason.uptrend t.strength], [t.strength])
  else if t.direction = "downtrend" then
    (-(t.strength * (3 / 10)), [Reason.downtrend t.strength], [t.strength])
  else
    (0, [Reason.sideways], [40])

/-- The `price_position` local of block 2 of `_calculate_final_signal`:
starts at `50` (middle of range) and is recomputed from the range only when
the live price is positive and the range size is positive. -/
def pricePosition (s r price : ℚ) : ℚ :=
  if price > 0 then
    if r - s > 0 then ((price - s) / (r - s)) * 100 else 50
  else 50

/-- Block 2 of `_calculate_final_signal` ("Support/Resistance Analysis"). -/
def srSection (sr : SRInfo) (price : ℚ) : ℚ × List Reason × List ℚ :=
  if truthy sr.support && truthy sr.resistance then
    let s := sr.support.getD 0
    let r := sr.resistance.getD 0
    if pricePosition s r price < 30 then (15, [Reason.nearSupport s], [70])
    else if pricePosition s r price > 70 then (-15, [Reason.nearResistance r], [70])
    else (0, [Reason.middleRange s r], [50])
  else (0, [], [])

/-- Block 3 of `_calculate_final_signal` ("Pattern Analysis"). -/
def patternSection (patterns : List String) (changePct : ℚ) : ℚ × List Reason × List ℚ :=
  if "triangle" ∈ patterns then
    if changePct > 1 / 2 then (20, [Reason.triangleBullish], [75])
    else (-20, [Reason.triangleBearish], [75])
  else if "rectangle_channel" ∈ patterns then (0, [Reason.channel], [60])
  else (0, [], [])

/-- Block 4a of `_calculate_final_signal` (RSI thresholds). -/
def rsiSection (rsi : ℚ) : ℚ × List Reason × List ℚ :=
  if rsi < 30 then (20, [Reason.rsiOversold rsi], [80])
  else if rsi < 40 then (10, [Reason.rsiNearOversold rsi], [65])
  else if rsi > 70 then (-20, [Reason.rsiOverbought rsi], [80])
  else if rsi > 60 then (-10, [Reason.rsiNearOverbought rsi], [65])
  else (0, [], [])

/-- Block 4b of `_calculate_final_signal` (price-change momentum). -/
def changeSection (change : ℚ) : ℚ × List Reason × List ℚ :=
  if change > 1 then (10, [Reason.bullMomentum change], [70])
  else if change < -1 then (-10, [Reason.bearMomentum change], [70])
  else (0, [], [])

/-- Block 5 of `_calculate_final_signal` ("Candle Structure"). -/
def candleSection (candles : String) : ℚ × List Reason × List ℚ :=
  if candles = "more_bullish_candles" then (10, [Reason.bullishCandles], [60])
  else if candles = "more_bearish_candles" then (-10, [Reason.bearishCandles], [60])
  else (0, [], [])

/-- The value of the `score` accumulator after all five blocks. -/
def totalScore (img : ImgAnalysis) (live : LiveData) : ℚ :=
  (trendSection img.trend_detected).1 + (srSection img.support_resistance live.price).1 +
    (patternSection img.patterns live.change_pct).1 + (rsiSection live.rsi).1 +
    (changeSection live.change_pct).1 + (candleSection img.candle_structure).1

/-- The value of the `reasons` accumulator after all five blocks (appends in
source order become list concatenation). -/
def totalReasons (img : ImgAnalysis) (live : LiveData) : List Reason :=
  (trendSection img.trend_detected).2.1 ++ (srSection img.support_resistance live.price).2.1 ++
    (patternSection img.patterns live.change_pct).2.1 ++ (rsiSection live.rsi).2.1 ++
    (changeSection live.change_pct).2.1 ++ (candleSection img.candle_structure).2.1

/-- The value of the `confidence_factors` accumulator after all five blocks. -/
def totalFactors (img : ImgAnalysis) (live : LiveData) : List ℚ :=
  (trendSection img.trend_detected).2.2 ++ (srSection img.support_resistance live.price).2.2 ++
    (patternSection img.patterns live.change_pct).2.2 ++ (rsiSection live.rsi).2.2 ++
    (changeSection live.change_pct).2.2 ++ (candleSection img.candle_structure).2.2

/-- The `self.min_confidence` attribute set in `__init__`. -/
def min_confidence : ℚ := 70

/-- The `avg_confidence` value: `np.mean(confidence_factors) if
confidence_factors else 50`. -/
def avgConfidence (img : ImgAnalysis) (live : LiveData) : ℚ :=
  if totalFactors img live = [] then 50 else mean (totalFactors img live)

/-- The signal / confidence pair chosen by the `if score > 25 ... elif ...
else` cascade of `_calculate_final_signal`. -/
def signalConf (img : ImgAnalysis) (live : LiveData) : String × ℚ :=
  if totalScore img live > 25 ∧ avgConfidence img live > min_confidence then
    ("BUY", min 95 (avgConfidence img live + 10))
  else if totalScore img live < -25 ∧ avgConfidence img live > min_confidence then
    ("SELL", min 95 (avgConfidence img live + 10))
  else ("NEUTRAL", avgConfidence img live)

/-- The raw (pre-rounding) `entry` / `tp` / `sl` values of the
"Calculate levels" block. -/
structure RawLevels where
  entry : ℚ
  tp : Option ℚ
  sl : Option ℚ
deriving DecidableEq

/-- The "Calculate levels" block of `_calculate_final_signal`, before the
decimal rounding of the returned dictionary. -/
def rawLevels (signal : String) (currentPrice dayHigh dayLow : ℚ) : RawLevels :=
  if signal = "BUY" then
    let entry := currentPrice
    let sl := min (dayLow * (998 / 1000)) (currentPrice * (985 / 1000))
    let risk := entry - sl
    let tp := entry + risk * (5 / 2)
    ⟨entry, some tp, some sl⟩
  else if signal = "SELL" then
    let entry := currentPrice
    let sl := max (dayHigh * (1002 / 1000)) (currentPrice * (1015 / 1000))
    let risk := sl - entry
    let tp := entry - risk * (5 / 2)
    ⟨entry, some tp, some sl⟩
  else
    ⟨currentPrice, none, none⟩

/-- The decimal count chosen by the "Round to proper decimals" block:
`2` above `1000`, `3` above `100`, otherwise `5`. -/
def decimalsFor (currentPrice : ℚ) : ℕ :=
  if currentPrice > 1000 then 2 else if currentPrice > 100 then 3 else 5

/-- Python's `round(v, d) if v else None` applied to an optional value
(`None` stays `None`, a zero value is falsy and also becomes `None`). -/
def optRound (x : Option ℚ) (d : ℕ) : Option ℚ :=
  match x with
  | none => none
  | some v => if v = 0 then none else some (roundTo v d)

/-- The dictionary returned by `_calculate_final_signal`; the nested
`indicators` and `levels` dictionaries are flattened with `ind_` / `lvl_`
field prefixes. -/
structure SignalResult where
  signal : String
  confidence : ℚ
  score : ℚ
  entry_price : Option ℚ
  take_profit : Option ℚ
  stop_loss : Option ℚ
  risk_reward : ℚ
  reasoning : List Reason
  ind_rsi : ℚ
  ind_change_24h : ℚ
  ind_trend_direction : String
  ind_volatility : String
  ind_volume_trend : String
  ind_patterns : List String
  lvl_day_high : ℚ
  lvl_day_low : ℚ
  lvl_support : Option ℚ
  lvl_resistance : Option ℚ
deriving DecidableEq

/-- The method `_calculate_final_signal(img_analysis, live_data, pair)`.
The `pair` parameter is accepted but, as in the source, never read. -/
def calcFinalSignal (img : ImgAnalysis) (live : LiveData) (pair : String) : SignalResult :=
  let sc := signalConf img live
  let currentPrice := live.price
  let dayHigh := live.day_high
  let dayLow := live.day_low
  let lv := rawLevels sc.1 currentPrice dayHigh dayLow
  let decimals := decimalsFor currentPrice
  { signal := sc.1
    confidence := roundTo sc.2 1
    score := roundTo (totalScore img live) 1
    entry_price := if lv.entry = 0 then none else some (roundTo lv.entry decimals)
    take_profit := optRound lv.tp decimals
    stop_loss := optRound lv.sl decimals
    risk_reward := if sc.1 ≠ "NEUTRAL" then 5 / 2 else 0
    reasoning := totalReasons img live
    ind_rsi := roundTo live.rsi 1
    ind_change_24h := roundTo live.change_pct 2
    ind_trend_direction := img.trend_detected.direction
    ind_volatility := img.volatility
    ind_volume_trend := img.volume_trend
    ind_patterns := img.patterns
    lvl_day_high := roundTo dayHigh decimals
    lvl_day_low := roundTo dayLow decimals
    lvl_support := img.support_resistance.support
    lvl_resistance := img.support_resistance.resistance }

/-- The dictionary built by `_fallback_analysis` (its `reason` argument is
only logged, never stored). -/
def fallback_analysis : ImgAnalysis :=
  { trend_detected := ⟨"unknown", 50⟩
    support_resistance := ⟨some 30, some 70⟩
    patterns := ["analysis_failed"]
    volatility := "medium"
    volume_trend := "stable"
    candle_structure := "mixed_candles" }

/-- The zero-price fallback dictionary substituted by `generate_signal` when
`get_live_price_data` returns `None`. -/
def fallbackLiveData : LiveData :=
  { price := 0, change_pct := 0, rsi := 50, day_high := 0, day_low := 0, trend := "neutral" }

/-- The method `generate_signal(pair, image_path)`.  The image-analysis result
is taken as an `Option` input (`none` models `image_path=None`, in which case
`_fallback_analysis("No image")` is used; `analyze_chart_image` itself is
OpenCV code whose output dictionary is the `some` payload).  Likewise the
live fetch is an `Option LiveData` (`none` models a failed
`get_live_price_data`, replaced by the zero-price fallback record). -/
def generateSignal (imgResult : Option ImgAnalysis) (liveResult : Option LiveData)
    (pair : String) : SignalResult :=
  let img_analysis := imgResult.getD fallback_analysis
  let live_data := liveResult.getD fallbackLiveData
  calcFinalSignal img_analysis live_data pair

/-- Consecutive close-to-close changes `closes[i] - closes[i-1]` of the
"Simple RSI calculation" block of `get_live_price_data`. -/
def deltas (closes : List ℚ) : List ℚ :=
  List.zipWith (fun prev cur => cur - prev) closes closes.tail

/-- The `gains` list of the RSI block: the positive changes, `0` elsewhere. -/
def gains (closes : List ℚ) : List ℚ :=
  (deltas closes).map (fun d => if d > 0 then d else 0)

/-- The `losses` list of the RSI block: `abs(change)` for non-positive
changes, `0` elsewhere. -/
def losses (closes : List ℚ) : List ℚ :=
  (deltas closes).map (fun d => if d > 0 then 0 else |d|)

/-- Python's `l[-n:]`: the last `n` elements of a list. -/
def lastN (n : ℕ) (l : List ℚ) : List ℚ := l.drop (l.length - n)

/-- The averaging applied to both `gains` and `losses`:
`np.mean(l[-14:]) if len(l) >= 14 else np.mean(l) if l else 0`. -/
def avgWindow (l : List ℚ) : ℚ :=
  if l.length ≥ 14 then mean (lastN 14 l) else if l = [] then 0 else mean l

/-- The `avg_gain` value of the RSI block. -/
def avg_gain (closes : List ℚ) : ℚ := avgWindow (gains closes)

/-- The `avg_loss` value of the RSI block. -/
def avg_loss (closes : List ℚ) : ℚ := avgWindow (losses closes)

/-- The `rsi` value computed by `get_live_price_data`: `100` when
`avg_loss == 0`, else `100 - 100/(1 + avg_gain/avg_loss)`. -/
def rsiOf (closes : List ℚ) : ℚ :=
  if avg_loss closes = 0 then 100
  else 100 - 100 / (1 + avg_gain closes / avg_loss closes)

/-- The deltas that actually enter the RSI averages: the last `14` when at
least `14` exist, otherwise all of them. -/
def windowDeltas (closes : List ℚ) : List ℚ :=
  if (deltas closes).length ≥ 14 then lastN 14 (deltas closes) else deltas closes

/-- Concrete image analysis producing an unopposed strong uptrend reading:
trend strength `95`, no support/resistance levels, no recognised pattern. -/
def imgBuy : ImgAnalysis :=
  { trend_detected := ⟨"uptrend", 95⟩
    support_resistance := ⟨none, none⟩
    patterns := ["no_clear_pattern"]
    volatility := "medium"
    volume_trend := "stable"
    candle_structure := "mixed_candles" }

/-- Concrete live-data record for a default-class pair at price `100`. -/
def liveBuy : LiveData :=
  { price := 100, change_pct := 0, rsi := 50, day_high := 101, day_low := 99, trend := "neutral" }

/-- Concrete live-data record for the metals pair `XAUUSD` at price `2000`. -/
def liveGold : LiveData :=
  { price := 2000, change_pct := 0, rsi := 50, day_high := 2050, day_low := 1950, trend := "neutral" }

lemma floor_le_roundHalfEven (x : ℚ) : ⌊x⌋ ≤ roundHalfEven x := by
  unfold roundHalfEven
  split_ifs <;> omega

lemma roundHalfEven_le_floor_add_one (x : ℚ) : roundHalfEven x ≤ ⌊x⌋ + 1 := by
  unfold roundHalfEven
  split_ifs <;> omega

lemma roundHalfEven_intCast (n : ℤ) : roundHalfEven (n : ℚ) = n := by
  unfold roundHalfEven
  rw [Int.floor_intCast]
  norm_num

lemma roundHalfEven_bounds (lo hi : ℤ) (x : ℚ) (h1 : (lo : ℚ) ≤ x) (h2 : x ≤ (hi : ℚ)) :
    lo ≤ roundHalfEven x ∧ roundHalfEven x ≤ hi := by
  constructor
  · exact le_trans (Int.le_floor.mpr h1) (floor_le_roundHalfEven x)
  · rcases eq_or_lt_of_le h2 with heq | hlt
    · rw [heq, roundHalfEven_intCast]
    · have hf : ⌊x⌋ < hi := Int.floor_lt.mpr hlt
      exact le_trans (roundHalfEven_le_floor_add_one x) (by omega)

lemma roundTo_bounds (lo hi : ℤ) (d : ℕ) (x : ℚ) (h1 : (lo : ℚ) ≤ x) (h2 : x ≤ (hi : ℚ)) :
    (lo : ℚ) ≤ roundTo x d ∧ roundTo x d ≤ (hi : ℚ) := by
  have hpow : (0 : ℚ) < 10 ^ d := by positivity
  have h1m : ((lo * 10 ^ d : ℤ) : ℚ) ≤ x * 10 ^ d := by
    push_cast
    exact mul_le_mul_of_nonneg_right h1 hpow.le
  have h2m : x * 10 ^ d ≤ ((hi * 10 ^ d : ℤ) : ℚ) := by
    push_cast
    exact mul_le_mul_of_nonneg_right h2 hpow.le
  obtain ⟨hl, hr⟩ := roundHalfEven_bounds _ _ _ h1m h2m
  unfold roundTo
  constructor
  · rw [le_div_iff₀ hpow]
    calc (lo : ℚ) * 10 ^ d = ((lo * 10 ^ d : ℤ) : ℚ) := by push_cast; ring
    _ ≤ (roundHalfEven (x * 10 ^ d) : ℚ) := by exact_mod_cast hl
  · rw [div_le_iff₀ hpow]
    calc (roundHalfEven (x * 10 ^ d) : ℚ) ≤ ((hi * 10 ^ d : ℤ) : ℚ) := by exact_mod_cast hr
    _ = (hi : ℚ) * 10 ^ d := by push_cast; ring

lemma mean_bounds (lo hi : ℚ) (l : List ℚ) (hne : l ≠ [])
    (h : ∀ x ∈ l, lo ≤ x ∧ x ≤ hi) : lo ≤ mean l ∧ mean l ≤ hi := by
  have hlen : 0 < l.length := List.length_pos.mpr hne
  have hlenQ : (0 : ℚ) < (l.length : ℚ) := by exact_mod_cast hlen
  have hsum_le : l.sum ≤ l.length • hi := List.sum_le_card_nsmul l hi (fun x hx => (h x hx).2)
  have hle_sum : l.length • lo ≤ l.sum := List.card_nsmul_le_sum l lo (fun x hx => (h x hx).1)
  rw [nsmul_eq_mul] at hsum_le hle_sum
  unfold mean
  constructor
  · rw [le_div_iff₀ hlenQ]
    linarith
  · rw [div_le_iff₀ hlenQ]
    linarith

lemma trendSection_factors (t : TrendInfo) (x : ℚ) (hx : x ∈ (trendSection t).2.2) :
    x = 40 ∨ (x = t.strength ∧
      (t.direction = "uptrend" ∨ t.direction = "downtrend")) := by
  unfold trendSection at hx
  split_ifs at hx with h1 h2
  · simp only [List.mem_singleton] at hx
    exact Or.inr ⟨hx, Or.inl h1⟩
  · simp only [List.mem_singleton] at hx
    exact Or.inr ⟨hx, Or.inr h2⟩
  · simp only [List.mem_singleton] at hx
    exact Or.inl hx

lemma trendSection_factors_ne_nil (t : TrendInfo) : (trendSection t).2.2 ≠ [] := by
  unfold trendSection
  split_ifs <;> simp

lemma srSection_factors (sr : SRInfo) (price : ℚ) (x : ℚ)
    (hx : x ∈ (srSection sr price).2.2) : 40 ≤ x ∧ x ≤ 80 := by
  simp only [srSection] at hx
  split_ifs at hx <;> simp_all <;> norm_num

lemma patternSection_factors (patterns : List String) (changePct : ℚ) (x : ℚ)
    (hx : x ∈ (patternSection patterns changePct).2.2) : 40 ≤ x ∧ x ≤ 80 := by
  unfold patternSection at hx
  split_ifs at hx <;> simp_all <;> norm_num

lemma rsiSection_factors (rsi : ℚ) (x : ℚ)
    (hx : x ∈ (rsiSection rsi).2.2) : 40 ≤ x ∧ x ≤ 80 := by
  unfold rsiSection at hx
  split_ifs at hx <;> simp_all <;> norm_num

lemma changeSection_factors (change : ℚ) (x : ℚ)
    (hx : x ∈ (changeSection change).2.2) : 40 ≤ x ∧ x ≤ 80 := by
  unfold changeSection at hx
  split_ifs at hx <;> simp_all <;> norm_num

lemma candleSection_factors (candles : String) (x : ℚ)
    (hx : x ∈ (candleSection candles).2.2) : 40 ≤ x ∧ x ≤ 80 := by
  unfold candleSection at hx
  split_ifs at hx <;> simp_all <;> norm_num

lemma totalFactors_ne_nil (img : ImgAnalysis) (live : LiveData) :
    totalFactors img live ≠ [] := by
  unfold totalFactors
  intro h
  rw [List.append_eq_nil, List.append_eq_nil, List.append_eq_nil, List.append_eq_nil,
    List.append_eq_nil] at h
  exact trendSection_factors_ne_nil img.trend_detected h.1.1.1.1.1

lemma totalFactors_bounds (lo : ℚ) (hlo : lo ≤ 40) (img : ImgAnalysis) (live : LiveData)
    (himg : img.trend_detected.direction = "uptrend" ∨ img.trend_detected.direction = "downtrend" →
      lo ≤ img.trend_detected.strength ∧ img.trend_detected.strength ≤ 95) :
    ∀ x ∈ totalFactors img live, lo ≤ x ∧ x ≤ 95 := by
  intro x hx
  unfold totalFactors at hx
  simp only [List.mem_append] at hx
  rcases hx with ((((h | h) | h) | h) | h) | h
  · rcases trendSection_factors _ _ h with h40 | ⟨hs, hdir⟩
    · subst h40
      exact ⟨hlo, by norm_num⟩
    · subst hs
      exact himg hdir
  · obtain ⟨ha, hb⟩ := srSection_factors _ _ _ h
    exact ⟨by linarith, by linarith⟩
  · obtain ⟨ha, hb⟩ := patternSection_factors _ _ _ h
    exact ⟨by linarith, by linarith⟩
  · obtain ⟨ha, hb⟩ := rsiSection_factors _ _ h
    exact ⟨by linarith, by linarith⟩
  · obtain ⟨ha, hb⟩ := changeSection_factors _ _ h
    exact ⟨by linarith, by linarith⟩
  · obtain ⟨ha, hb⟩ := candleSection_factors _ _ h
    exact ⟨by linarith, by linarith⟩

lemma avgConfidence_bounds (lo : ℚ) (hlo : lo ≤ 40) (img : ImgAnalysis) (live : LiveData)
    (himg : img.trend_detected.direction = "uptrend" ∨ img.trend_detected.direction = "downtrend" →
      lo ≤ img.trend_detected.strength ∧ img.trend_detected.strength ≤ 95) :
    lo ≤ avgConfidence img live ∧ avgConfidence img live ≤ 95 := by
  unfold avgConfidence
  rw [if_neg (totalFactors_ne_nil img live)]
  exact mean_bounds lo 95 _ (totalFactors_ne_nil img live)
    (totalFactors_bounds lo hlo img live himg)

lemma signalConf_bounds (lo : ℚ) (hlo : lo ≤ 40) (img : ImgAnalysis) (live : LiveData)
    (himg : img.trend_detected.direction = "uptrend" ∨ img.trend_detected.direction = "downtrend" →
      lo ≤ img.trend_detected.strength ∧ img.trend_detected.strength ≤ 95) :
    lo ≤ (signalConf img live).2 ∧ (signalConf img live).2 ≤ 95 := by
  obtain ⟨h1, h2⟩ := avgConfidence_bounds lo hlo img live himg
  unfold signalConf
  split_ifs <;> simp only
  · exact ⟨le_min (by linarith) (by linarith), min_le_left _ _⟩
  · exact ⟨le_min (by linarith) (by linarith), min_le_left _ _⟩
  · exact ⟨h1, h2⟩

lemma confidence_bounds (lo : ℤ) (hlo : (lo : ℚ) ≤ 40) (img : ImgAnalysis) (live : LiveData)
    (pair : String)
    (himg : img.trend_detected.direction = "uptrend" ∨ img.trend_detected.direction = "downtrend" →
      (lo : ℚ) ≤ img.trend_detected.strength ∧ img.trend_detected.strength ≤ 95) :
    (lo : ℚ) ≤ (calcFinalSignal img live pair).confidence ∧
      (calcFinalSignal img live pair).confidence ≤ 95 := by
  obtain ⟨h1, h2⟩ := signalConf_bounds (lo : ℚ) hlo img live himg
  have hconf : (calcFinalSignal img live pair).confidence = roundTo (signalConf img live).2 1 := rfl
  rw [hconf]
  have hb := roundTo_bounds lo 95 1 (signalConf img live).2 h1 (by exact_mod_cast h2)
  exact ⟨hb.1, by exact_mod_cast hb.2⟩

/-- C10: for every result of `_calculate_final_signal` — under any image-analysis
outcome whose appended trend strength lies in the analyzer's output range
(`_detect_trend` only reports strengths for `uptrend`/`downtrend` directions,
where they are `min(95, 70+...) ∈ [70,95]`, and `_fallback_analysis` uses
direction `unknown`; the hypothesis `40 ≤ strength ≤ 95` is weaker than both)
and any live-data outcome, including both fallback records — the returned
confidence lies in `[40, 95]`: the trend block always appends a factor, every
factor lies in `[40, 95]`, and BUY/SELL confidence is `min(95, avg+10)`.
In particular a confidence of `0` is never returned. -/
theorem c10_confidence_in_range (img : ImgAnalysis) (live : LiveData) (pair : String)
    (himg : img.trend_detected.direction = "uptrend" ∨
        img.trend_detected.direction = "downtrend" →
      40 ≤ img.trend_detected.strength ∧ img.trend_detected.strength ≤ 95) :
    40 ≤ (calcFinalSignal img live pair).confidence ∧
      (calcFinalSignal img live pair).confidence ≤ 95 ∧
      (calcFinalSignal img live pair).confidence ≠ 0 := by
  obtain ⟨h1, h2⟩ := confidence_bounds 40 (by norm_num) img live pair
    (fun h => by exact_mod_cast himg h)
  refine ⟨by exact_mod_cast h1, by exact_mod_cast h2, ?_⟩
  intro h0
  rw [h0] at h1
  norm_num at h1

/-- Witness for C10 at the concrete no-image, failed-live-fetch input. -/
theorem c10_confidence_in_range_witness :
    40 ≤ (calcFinalSignal fallback_analysis fallbackLiveData "EURUSD").confidence ∧
      (calcFinalSignal fallback_analysis fallbackLiveData "EURUSD").confidence ≤ 95 ∧
      (calcFinalSignal fallback_analysis fallbackLiveData "EURUSD").confidence ≠ 0 :=
  c10_confidence_in_range fallback_analysis fallbackLiveData "EURUSD"
    (by intro h; simp [fallback_analysis] at h)

/-- C8 counterexample: at an image analysis contributing the single confidence
factor `95` and neutral live data, the uncapped value `avg_confidence + 10`
is `105 ≥ 98`, yet the reported confidence is `95`: the code saturates
confidence at `95` via `min(95, avg+10)`, not at `98` as the claim states. -/
theorem c8_counterexample :
    (calcFinalSignal imgBuy liveBuy "EURUSD").signal = "BUY" ∧
      avgConfidence imgBuy liveBuy + 10 = 105 ∧
      min (98 : ℚ) (avgConfidence imgBuy liveBuy + 10) = 98 ∧
      (calcFinalSignal imgBuy liveBuy "EURUSD").confidence = 95 ∧
      (calcFinalSignal imgBuy liveBuy "EURUSD").confidence ≠ 98 := by
  simp [calcFinalSignal, signalConf, avgConfidence, totalScore, totalFactors,
    trendSection, srSection, patternSection, rsiSection, changeSection, candleSection,
    imgBuy, liveBuy, mean, truthy, min_confidence, roundTo, roundHalfEven]
  norm_num

/-- C8 amended: for every input whose image-analysis trend strength lies in the
analyzer's output range `[0, 95]`, the reported confidence lies within
`[0, 100]` and saturates at `95` (the cap is `min(95, avg+10)`); it never
reaches `98`, let alone `100`. -/
theorem c8_confidence_saturates_at_95 (img : ImgAnalysis) (live : LiveData) (pair : String)
    (himg : img.trend_detected.direction = "uptrend" ∨
        img.trend_detected.direction = "downtrend" →
      0 ≤ img.trend_detected.strength ∧ img.trend_detected.strength ≤ 95) :
    0 ≤ (calcFinalSignal img live pair).confidence ∧
      (calcFinalSignal img live pair).confidence ≤ 95 ∧
      (calcFinalSignal img live pair).confidence ≠ 98 ∧
      (calcFinalSignal img live pair).confidence ≠ 100 := by
  obtain ⟨h1, h2⟩ := confidence_bounds 0 (by norm_num) img live pair
    (fun h => by exact_mod_cast himg h)
  refine ⟨by exact_mod_cast h1, by exact_mod_cast h2, ?_, ?_⟩
  · intro h0
    rw [h0] at h2
    norm_num at h2
  · intro h0
    rw [h0] at h2
    norm_num at h2

/-- Witness for the amended C8 at a concrete strong-uptrend input. -/
theorem c8_confidence_saturates_at_95_witness :
    0 ≤ (calcFinalSignal imgBuy liveGold "XAUUSD").confidence ∧
      (calcFinalSignal imgBuy liveGold "XAUUSD").confidence ≤ 95 ∧
      (calcFinalSignal imgBuy liveGold "XAUUSD").confidence ≠ 98 ∧
      (calcFinalSignal imgBuy liveGold "XAUUSD").confidence ≠ 100 :=
  c8_confidence_saturates_at_95 imgBuy liveGold "XAUUSD" (by intro h; norm_num [imgBuy])

/-- C2: the final signal computation is a pure function of the pair, the
image-analysis result and the live-data record — two runs on identical inputs
return identical result dictionaries (same signal, confidence, score, price
levels, indicator values, and the same reasons in the same order); no
randomness or wall-clock value enters the scoring math. -/
theorem c2_deterministic (img1 img2 : ImgAnalysis) (live1 live2 : LiveData)
    (pair1 pair2 : String) (h1 : img1 = img2) (h2 : live1 = live2) (h3 : pair1 = pair2) :
    calcFinalSignal img1 live1 pair1 = calcFinalSignal img2 live2 pair2 := by
  rw [h1, h2, h3]

/-- Witness for C2 at a concrete input. -/
theorem c2_deterministic_witness :
    calcFinalSignal fallback_analysis fallbackLiveData "EURUSD" =
      calcFinalSignal fallback_analysis fallbackLiveData "EURUSD" :=
  c2_deterministic fallback_analysis fallback_analysis fallbackLiveData fallbackLiveData
    "EURUSD" "EURUSD" rfl rfl rfl

lemma gains_nonneg (closes : List ℚ) : ∀ x ∈ gains closes, 0 ≤ x := by
  intro x hx
  unfold gains at hx
  rw [List.mem_map] at hx
  obtain ⟨d, _, rfl⟩ := hx
  split_ifs with h
  · exact h.le
  · exact le_refl 0

lemma losses_nonneg (closes : List ℚ) : ∀ x ∈ losses closes, 0 ≤ x := by
  intro x hx
  unfold losses at hx
  rw [List.mem_map] at hx
  obtain ⟨d, _, rfl⟩ := hx
  split_ifs with h
  · exact le_refl 0
  · exact abs_nonneg d

lemma avgWindow_nonneg (l : List ℚ) (h : ∀ x ∈ l, 0 ≤ x) : 0 ≤ avgWindow l := by
  unfold avgWindow
  split_ifs with h1 h2
  · unfold mean
    apply div_nonneg
    · exact List.sum_nonneg (fun x hx => h x (List.drop_subset _ _ hx))
    · positivity
  · exact le_refl 0
  · unfold mean
    apply div_nonneg
    · exact List.sum_nonneg h
    · positivity

lemma losses_window_zero (closes : List ℚ) (h : ∀ d ∈ windowDeltas closes, 0 ≤ d) :
    avg_loss closes = 0 := by
  have hmapzero : ∀ m : List ℚ, (∀ d ∈ m, 0 ≤ d) →
      (m.map (fun d => if d > 0 then 0 else |d|)).sum = 0 := by
    intro m hm
    apply List.sum_eq_zero
    intro x hx
    rw [List.mem_map] at hx
    obtain ⟨d, hd, rfl⟩ := hx
    split_ifs with hd0
    · rfl
    · have hz : d = 0 := le_antisymm (not_lt.mp hd0) (hm d hd)
      rw [hz, abs_zero]
  unfold avg_loss avgWindow
  unfold windowDeltas at h
  have hlen : (losses closes).length = (deltas closes).length := List.length_map _ _
  by_cases hc : (losses closes).length ≥ 14
  · rw [if_pos hc]
    have hc2 : (deltas closes).length ≥ 14 := by rwa [hlen] at hc
    rw [if_pos hc2] at h
    have hmap : lastN 14 (losses closes) =
        (lastN 14 (deltas closes)).map (fun d => if d > 0 then 0 else |d|) := by
      unfold lastN losses
      rw [List.length_map, List.map_drop]
    unfold mean
    rw [hmap, hmapzero _ h, zero_div]
  · rw [if_neg hc]
    have hc2 : ¬(deltas closes).length ≥ 14 := by rwa [hlen] at hc
    rw [if_neg hc2] at h
    split_ifs with hnil
    · rfl
    · unfold mean
      unfold losses
      rw [hmapzero _ h, zero_div]

/-- C3: for every list of closes, the RSI computed by `get_live_price_data`
lies within `[0, 100]`; and whenever every delta in the averaging window
(the last `14` deltas, or all of them when fewer exist — including the fully
flat window where every delta is zero) is non-negative, the average loss is
`0` and the RSI equals exactly `100`. -/
theorem c3_rsi_bounds (closes : List ℚ) :
    (0 ≤ rsiOf closes ∧ rsiOf closes ≤ 100) ∧
      ((∀ d ∈ windowDeltas closes, 0 ≤ d) → rsiOf closes = 100) := by
  constructor
  · unfold rsiOf
    split_ifs with h
    · norm_num
    · have hg : 0 ≤ avg_gain closes := avgWindow_nonneg _ (gains_nonneg closes)
      have hl0 : 0 ≤ avg_loss closes := avgWindow_nonneg _ (losses_nonneg closes)
      have hl : 0 < avg_loss closes := lt_of_le_of_ne hl0 (Ne.symm h)
      have hrs : 0 ≤ avg_gain closes / avg_loss closes := div_nonneg hg hl.le
      constructor
      · have hle : 100 / (1 + avg_gain closes / avg_loss closes) ≤ 100 := by
          rw [div_le_iff₀ (by linarith)]
          nlinarith
        linarith
      · have hpos : 0 < 100 / (1 + avg_gain closes / avg_loss closes) := by positivity
        linarith
  · intro h
    unfold rsiOf
    rw [if_pos (losses_window_zero closes h)]

/-- Witness for C3 at the strictly increasing closes `[1, 2, 3]`. -/
theorem c3_rsi_bounds_witness :
    (0 ≤ rsiOf [1, 2, 3] ∧ rsiOf [1, 2, 3] ≤ 100) ∧ rsiOf [1, 2, 3] = 100 :=
  ⟨(c3_rsi_bounds [1, 2, 3]).1, (c3_rsi_bounds [1, 2, 3]).2 (by
    intro d hd
    simp [windowDeltas, deltas, lastN] at hd
    rcases hd with rfl | rfl <;> norm_num)⟩

/-- Modelled from the spec (§4.1): one Wilder smoothing pass,
`avg = (avg*(period-1) + new)/period` folded over the remaining deltas. -/
def wilderSmooth (period seed : ℚ) (rest : List ℚ) : ℚ :=
  rest.foldl (fun avg x => (avg * (period - 1) + x) / period) seed

/-- Modelled from the spec: the average gain the claim describes — a simple
mean over the first `14` deltas, then Wilder-smoothed over the remaining
deltas of the series. -/
def avgGainSpec (closes : List ℚ) : ℚ :=
  wilderSmooth 14 (mean ((gains closes).take 14)) ((gains closes).drop 14)

/-- Concrete counterexample series for C4: sixteen closes with a single
initial upward jump of `14` followed by a flat stretch. -/
def cexCloses : List ℚ :=
  [0, 14, 14, 14, 14, 14, 14, 14, 14, 14, 14, 14, 14, 14, 14, 14]

/-- C4 counterexample: on `cexCloses` the code averages only the *last* 14
deltas with a plain mean (`np.mean(gains[-14:])`), giving `0`, while the
claimed first-period-mean-then-Wilder-smoothing recipe gives `13/14`. -/
theorem c4_counterexample :
    avg_gain cexCloses = 0 ∧ avgGainSpec cexCloses = 13 / 14 ∧
      avg_gain cexCloses ≠ avgGainSpec cexCloses := by
  refine ⟨?_, ?_, ?_⟩ <;>
    simp [avg_gain, avgGainSpec, avgWindow, wilderSmooth, gains, deltas, cexCloses,
      lastN, mean] <;>
    norm_num

/-- Statement form of the amended C4: the simple mean of the most recent `14`
entries of a list (all of them when fewer exist), `0` on the empty list. -/
def recentMean (l : List ℚ) : ℚ :=
  if l = [] then 0 else mean ((l.reverse.take 14).reverse)

lemma avgWindow_eq_recentMean (l : List ℚ) : avgWindow l = recentMean l := by
  unfold avgWindow recentMean
  by_cases hnil : l = []
  · subst hnil
    simp [lastN, mean]
  · by_cases hlen : l.length ≥ 14
    · rw [if_pos hlen, if_neg hnil]
      congr 1
      have h14 := List.rtake_eq_reverse_take_reverse l 14
      unfold List.rtake at h14
      unfold lastN
      exact h14
    · rw [if_neg hlen, if_neg hnil, if_neg hnil]
      congr 1
      rw [List.take_of_length_le (by rw [List.length_reverse]; omega), List.reverse_reverse]

/-- C4 amended: the RSI average gain and average loss are computed as a plain
mean of the most recent `min(14, available)` deltas (`np.mean(gains[-14:])`;
the mean of all deltas when fewer than `14` exist, `0` when none); no Wilder
smoothing is applied at any point. -/
theorem c4_recent_mean (closes : List ℚ) :
    avg_gain closes = recentMean (gains closes) ∧
      avg_loss closes = recentMean (losses closes) :=
  ⟨avgWindow_eq_recentMean (gains closes), avgWindow_eq_recentMean (losses closes)⟩

lemma rawLevels_buy (p dh dl : ℚ) (hp : 0 < p) :
    ∃ s t, rawLevels "BUY" p dh dl = ⟨p, some t, some s⟩ ∧ s < p ∧ p < t := by
  refine ⟨min (dl * (998 / 1000)) (p * (985 / 1000)),
    p + (p - min (dl * (998 / 1000)) (p * (985 / 1000))) * (5 / 2), ?_, ?_, ?_⟩
  · unfold rawLevels
    rw [if_pos rfl]
  · have h1 : min (dl * (998 / 1000)) (p * (985 / 1000)) ≤ p * (985 / 1000) :=
      min_le_right _ _
    nlinarith
  · have h1 : min (dl * (998 / 1000)) (p * (985 / 1000)) ≤ p * (985 / 1000) :=
      min_le_right _ _
    nlinarith

lemma rawLevels_sell (p dh dl : ℚ) (hp : 0 < p) :
    ∃ s t, rawLevels "SELL" p dh dl = ⟨p, some t, some s⟩ ∧ p < s ∧ t < p := by
  refine ⟨max (dh * (1002 / 1000)) (p * (1015 / 1000)),
    p - (max (dh * (1002 / 1000)) (p * (1015 / 1000)) - p) * (5 / 2), ?_, ?_, ?_⟩
  · unfold rawLevels
    rw [if_neg (by simp), if_pos rfl]
  · have h1 : p * (1015 / 1000) ≤ max (dh * (1002 / 1000)) (p * (1015 / 1000)) :=
      le_max_right _ _
    nlinarith
  · have h1 : p * (1015 / 1000) ≤ max (dh * (1002 / 1000)) (p * (1015 / 1000)) :=
      le_max_right _ _
    nlinarith

/-- C5: for every analysis whose live price is strictly positive, the raw
(pre-decimal-rounding) trade levels of the "Calculate levels" block satisfy:
for a BUY signal the stop loss is strictly below the entry (the current
price) and the take profit strictly above it; for a SELL signal the signs
mirror; and when the signal is NEUTRAL the returned `stop_loss` and
`take_profit` fields of the result dictionary are both `None`. -/
theorem c5_trade_level_signs (img : ImgAnalysis) (live : LiveData) (pair : String)
    (hp : 0 < live.price) :
    ((calcFinalSignal img live pair).signal = "BUY" →
      ∃ s t, rawLevels (calcFinalSignal img live pair).signal live.price live.day_high
          live.day_low = ⟨live.price, some t, some s⟩ ∧ s < live.price ∧ live.price < t) ∧
    ((calcFinalSignal img live pair).signal = "SELL" →
      ∃ s t, rawLevels (calcFinalSignal img live pair).signal live.price live.day_high
          live.day_low = ⟨live.price, some t, some s⟩ ∧ live.price < s ∧ t < live.price) ∧
    ((calcFinalSignal img live pair).signal = "NEUTRAL" →
      (calcFinalSignal img live pair).stop_loss = none ∧
        (calcFinalSignal img live pair).take_profit = none) := by
  refine ⟨?_, ?_, ?_⟩
  · intro h
    rw [h]
    exact rawLevels_buy live.price live.day_high live.day_low hp
  · intro h
    rw [h]
    exact rawLevels_sell live.price live.day_high live.day_low hp
  · intro h
    have hs : (signalConf img live).1 = "NEUTRAL" := h
    constructor
    · show optRound (rawLevels (signalConf img live).1 live.price live.day_high
        live.day_low).sl (decimalsFor live.price) = none
      rw [hs]
      simp [rawLevels, optRound]
    · show optRound (rawLevels (signalConf img live).1 live.price live.day_high
        live.day_low).tp (decimalsFor live.price) = none
      rw [hs]
      simp [rawLevels, optRound]

/-- Witness for C5 at a concrete BUY-producing input with positive price. -/
theorem c5_trade_level_signs_witness :
    ∃ s t, rawLevels (calcFinalSignal imgBuy liveBuy "GBPUSD").signal liveBuy.price
        liveBuy.day_high liveBuy.day_low = ⟨liveBuy.price, some t, some s⟩ ∧
      s < liveBuy.price ∧ liveBuy.price < t :=
  (c5_trade_level_signs imgBuy liveBuy "GBPUSD" (by norm_num [liveBuy])).1 (by
    simp [calcFinalSignal, signalConf, avgConfidence, totalScore, totalFactors,
      trendSection, srSection, patternSection, rsiSection, changeSection, candleSection,
      imgBuy, liveBuy, mean, truthy, min_confidence]
    norm_num)

/-- Modelled from the spec (§4.4): the decimal rounding tiers the claim
describes — `>10000 → 2dp`, `>1000 → 3dp`, `>100 → 4dp`, else `5dp`. -/
def decimalsForSpec (currentPrice : ℚ) : ℕ :=
  if currentPrice > 10000 then 2
  else if currentPrice > 1000 then 3
  else if currentPrice > 100 then 4
  else 5

/-- C6 counterexample: at price `5000` the code rounds to `2` decimals
(its tiers are `>1000 → 2`, `>100 → 3`, else `5`) while the claimed tier
table gives `3`; the claimed `>10000` and `4dp` tiers do not exist in the
code. -/
theorem c6_counterexample :
    decimalsFor 5000 = 2 ∧ decimalsForSpec 5000 = 3 ∧
      decimalsFor 5000 ≠ decimalsForSpec 5000 := by
  refine ⟨?_, ?_, ?_⟩ <;> norm_num [decimalsFor, decimalsForSpec]

/-- C6 amended: price fields are rounded by magnitude tiers with prices above
`1000` to 2 decimal places, above `100` to 3, and 5 decimal places
otherwise. -/
theorem c6_decimals_tiers (p : ℚ) :
    (1000 < p → decimalsFor p = 2) ∧ (100 < p → p ≤ 1000 → decimalsFor p = 3) ∧
      (p ≤ 100 → decimalsFor p = 5) := by
  unfold decimalsFor
  refine ⟨?_, ?_, ?_⟩
  · intro h
    rw [if_pos h]
  · intro h1 h2
    rw [if_neg (by linarith), if_pos h1]
  · intro h
    rw [if_neg (by linarith), if_neg (by linarith)]

/-- Witness for the amended C6 at one concrete price per tier. -/
theorem c6_decimals_tiers_witness :
    decimalsFor 20000 = 2 ∧ decimalsFor 500 = 3 ∧ decimalsFor 1 = 5 :=
  ⟨(c6_decimals_tiers 20000).1 (by norm_num),
    (c6_decimals_tiers 500).2.1 (by norm_num) (by norm_num),
    (c6_decimals_tiers 1).2.2 (by norm_num)⟩

/-- C7 counterexample: a BUY analysis on the precious-metal pair `XAUUSD`
reports `risk_reward = 2.5`, not the claimed per-asset-class `2.0` for
metals — the code returns `2.5` for every tradeable signal, whatever the
pair. -/
theorem c7_counterexample :
    (calcFinalSignal imgBuy liveGold "XAUUSD").signal = "BUY" ∧
      (calcFinalSignal imgBuy liveGold "XAUUSD").risk_reward = 5 / 2 ∧
      (5 / 2 : ℚ) ≠ 2 := by
  refine ⟨?_, ?_, by norm_num⟩ <;>
    simp [calcFinalSignal, signalConf, avgConfidence, totalScore, totalFactors,
      trendSection, srSection, patternSection, rsiSection, changeSection, candleSection,
      imgBuy, liveGold, mean, truthy, min_confidence] <;>
    norm_num <;> decide

/-- C7 amended: the reported riskReward is the fixed constant `2.5` for every
tradeable (non-NEUTRAL) signal regardless of asset class, and `0` for
NEUTRAL; the `pair` argument never enters the computation. -/
theorem c7_risk_reward_constant (img : ImgAnalysis) (live : LiveData) (pair : String) :
    ((calcFinalSignal img live pair).signal ≠ "NEUTRAL" →
      (calcFinalSignal img live pair).risk_reward = 5 / 2) ∧
    ((calcFinalSignal img live pair).signal = "NEUTRAL" →
      (calcFinalSignal img live pair).risk_reward = 0) := by
  constructor
  · intro h
    have hs : (signalConf img live).1 ≠ "NEUTRAL" := h
    show (if (signalConf img live).1 ≠ "NEUTRAL" then (5 / 2 : ℚ) else 0) = 5 / 2
    rw [if_pos hs]
  · intro h
    have hs : (signalConf img live).1 = "NEUTRAL" := h
    show (if (signalConf img live).1 ≠ "NEUTRAL" then (5 / 2 : ℚ) else 0) = 0
    rw [if_neg (not_not_intro hs)]

/-- Witness for the amended C7: a tradeable signal on a metals pair reports
`2.5`, the no-image no-data NEUTRAL case reports `0`. -/
theorem c7_risk_reward_constant_witness :
    (calcFinalSignal imgBuy liveGold "XAUUSD").risk_reward = 5 / 2 ∧
      (calcFinalSignal fallback_analysis fallbackLiveData "USDJPY").risk_reward = 0 :=
  ⟨(c7_risk_reward_constant imgBuy liveGold "XAUUSD").1 (by
      simp [calcFinalSignal, signalConf, avgConfidence, totalScore, totalFactors,
        trendSection, srSection, patternSection, rsiSection, changeSection, candleSection,
        imgBuy, liveGold, mean, truthy, min_confidence]
      norm_num
      all_goals decide),
    (c7_risk_reward_constant fallback_analysis fallbackLiveData "USDJPY").2 (by
      simp [calcFinalSignal, signalConf, avgConfidence, totalScore, totalFactors,
        trendSection, srSection, patternSection, rsiSection, changeSection, candleSection,
        fallback_analysis, fallbackLiveData, mean, truthy, min_confidence, pricePosition]
      norm_num)⟩

lemma rawLevels_zero (s : String) :
    (rawLevels s 0 0 0).entry = 0 ∧
      ((rawLevels s 0 0 0).tp = none ∨ (rawLevels s 0 0 0).tp = some 0) ∧
      ((rawLevels s 0 0 0).sl = none ∨ (rawLevels s 0 0 0).sl = some 0) := by
  unfold rawLevels
  split_ifs <;> norm_num

lemma levels_none_of_zero_price (img : ImgAnalysis) (pair : String) :
    (calcFinalSignal img fallbackLiveData pair).entry_price = none ∧
      (calcFinalSignal img fallbackLiveData pair).stop_loss = none ∧
      (calcFinalSignal img fallbackLiveData pair).take_profit = none := by
  have he := (rawLevels_zero (signalConf img fallbackLiveData).1).1
  have htp := (rawLevels_zero (signalConf img fallbackLiveData).1).2.1
  have hsl := (rawLevels_zero (signalConf img fallbackLiveData).1).2.2
  refine ⟨?_, ?_, ?_⟩
  · show (if (rawLevels (signalConf img fallbackLiveData).1 (0 : ℚ) 0 0).entry = 0 then none
        else some (roundTo (rawLevels (signalConf img fallbackLiveData).1 (0 : ℚ) 0 0).entry
          (decimalsFor (0 : ℚ)))) = none
    rw [if_pos he]
  · show optRound (rawLevels (signalConf img fallbackLiveData).1 (0 : ℚ) 0 0).sl
      (decimalsFor (0 : ℚ)) = none
    rcases hsl with h | h <;> rw [h] <;> simp [optRound]
  · show optRound (rawLevels (signalConf img fallbackLiveData).1 (0 : ℚ) 0 0).tp
      (decimalsFor (0 : ℚ)) = none
    rcases htp with h | h <;> rw [h] <;> simp [optRound]

/-- C9: when the live fetch fails, `generate_signal` substitutes the
zero-price fallback record, and then every result — even a BUY produced from
image analysis alone, as the second conjunct exhibits — has `entry_price`,
`stop_loss` and `take_profit` all `None`, because the zero entry/stop/target
values are falsy under the `if entry / if tp / if sl` guards applied before
rounding. -/
theorem c9_zero_price_fallback_levels :
    (∀ (img : ImgAnalysis) (pair : String),
      (calcFinalSignal img fallbackLiveData pair).entry_price = none ∧
        (calcFinalSignal img fallbackLiveData pair).stop_loss = none ∧
        (calcFinalSignal img fallbackLiveData pair).take_profit = none) ∧
    (calcFinalSignal imgBuy fallbackLiveData "BTCUSD").signal = "BUY" := by
  constructor
  · intro img pair
    exact levels_none_of_zero_price img pair
  · simp [calcFinalSignal, signalConf, avgConfidence, totalScore, totalFactors,
      trendSection, srSection, patternSection, rsiSection, changeSection, candleSection,
      imgBuy, fallbackLiveData, mean, truthy, min_confidence]
    norm_num

/-- C1 counterexample: with no image and a failed live fetch the result is
not the claimed `NO_TRADE / confidence 0 / "No data available"` report — the
code substitutes a zero-price fallback record and returns signal `NEUTRAL`
with confidence `45`, with reasons describing the chart trend and the
fallback support/resistance range (no data-unavailability reason exists in
the code at all). -/
theorem c1_counterexample :
    (generateSignal none none "EURUSD").signal = "NEUTRAL" ∧
      (generateSignal none none "EURUSD").confidence = 45 ∧
      (generateSignal none none "EURUSD").confidence ≠ 0 ∧
      (generateSignal none none "EURUSD").reasoning =
        [Reason.sideways, Reason.middleRange 30 70] := by
  refine ⟨?_, ?_, ?_, ?_⟩ <;>
    simp [generateSignal, fallback_analysis, fallbackLiveData, calcFinalSignal,
      signalConf, avgConfidence, totalScore, totalFactors, totalReasons, trendSection,
      srSection, patternSection, rsiSection, changeSection, candleSection, mean, truthy,
      min_confidence, roundTo, roundHalfEven, pricePosition] <;>
    norm_num

/-- C1 amended: when the live fetch returns no usable data, the analysis does
not report unavailability — it proceeds on a zero-price fallback record and
returns a NEUTRAL-or-trade signal with nonzero confidence and no
"No data available" reason — but it also never fabricates a price: for every
image-analysis outcome the returned entry, stop-loss and take-profit are all
`None`. -/
theorem c1_no_data_never_fabricates_price (imgResult : Option ImgAnalysis) (pair : String) :
    (generateSignal imgResult none pair).entry_price = none ∧
      (generateSignal imgResult none pair).stop_loss = none ∧
      (generateSignal imgResult none pair).take_profit = none :=
  levels_none_of_zero_price (imgResult.getD fallback_analysis) pair
